import Mathlib

/-!
Shallow embedding of the Vedic-astrology backend's calculation core
(`src/app.py`): Julian Day conversion, truncated solar/lunar longitude
series, ayanamsa correction, the four panchanga classifiers, and the
chart assembly.  Python float arithmetic is modelled exactly: `%` on
nonzero divisors is `a - b * ⌊a / b⌋` (Python semantics, divisor-signed),
`int(...)` truncates toward zero, and integer `//` is floor division.
Real-valued code paths (those involving `math.sin`) are embedded over ℝ;
the discrete classifiers are generic over any linear ordered field with a
floor so the same definitions serve both ℝ (the pipeline) and ℚ (exact
evaluation at concrete inputs).
-/

section Defs

variable {α : Type} [LinearOrderedField α] [FloorRing α]

/-- The 27 Nakshatra names (`NAKSHATRAS` in `src/app.py`). -/
def NAKSHATRAS : List String :=
  ["Ashwini", "Bharani", "Krittika", "Rohini", "Mrigashira",
   "Ardra", "Punarvasu", "Pushya", "Ashlesha", "Magha",
   "Purva Phalguni", "Uttara Phalguni", "Hasta", "Chitra", "Swati",
   "Vishakha", "Anuradha", "Jyeshta", "Mula", "Purva Ashadha",
   "Uttara Ashadha", "Shravana", "Dhanishta", "Shatabhisha", "Purva Bhadrapada",
   "Uttara Bhadrapada", "Revati"]

/-- The 12 Rasi names (`RASIS` in `src/app.py`). -/
def RASIS : List String :=
  ["Mesha", "Vrishabha", "Mithuna", "Karka", "Simha",
   "Kanya", "Tula", "Vrischika", "Dhanu", "Makara",
   "Kumbha", "Meena"]

/-- The 12 Rasi lords (`RASI_LORDS` in `src/app.py`). -/
def RASI_LORDS : List String :=
  ["Mangal", "Shukra", "Budha", "Chandra", "Surya",
   "Budha", "Shukra", "Mangal", "Guru", "Shani",
   "Shani", "Guru"]

/-- The 27 Nakshatra lords (`NAKSHATRA_LORDS` in `src/app.py`). -/
def NAKSHATRA_LORDS : List String :=
  ["Ketu", "Shukra", "Surya", "Chandra", "Mangal",
   "Rahu", "Guru", "Shani", "Budha", "Ketu",
   "Shukra", "Surya", "Chandra", "Mangal", "Rahu",
   "Guru", "Shani", "Budha", "Ketu", "Shukra",
   "Surya", "Chandra", "Mangal", "Rahu", "Guru",
   "Shani", "Budha"]

/-- The 15 Tithi names (`TITHIS` in `src/app.py`). -/
def TITHIS : List String :=
  ["Pratipada", "Dwitiya", "Tritiya", "Chaturthi", "Panchami",
   "Shashthi", "Saptami", "Ashtami", "Navami", "Dashami",
   "Ekadashi", "Dwadashi", "Trayodashi", "Chaturdashi", "Purnima/Amavasya"]

/-- The 27 Yoga names (`YOGAS` in `src/app.py`). -/
def YOGAS : List String :=
  ["Vishkambha", "Priti", "Ayushman", "Saubhagya", "Shobhana",
   "Atiganda", "Sukarma", "Dhriti", "Shula", "Ganda",
   "Vriddhi", "Dhruva", "Vyaghata", "Harshana", "Vajra",
   "Siddhi", "Sadhya", "Shubha", "Shukla", "Brahma",
   "Indra", "Vaidhriti", "Parigha", "Shiva", "Siddha",
   "Sadhaka", "Vimala"]

/-- Python's `%` on numbers with a nonzero divisor:
`a % b = a - b * floor(a / b)`. -/
def pymod (a b : α) : α :=
  a - b * (⌊a / b⌋ : ℤ)

/-- Python's `int(...)` applied to a number: truncation toward zero. -/
def pytrunc (a : α) : ℤ :=
  if a < 0 then ⌈a⌉ else ⌊a⌋

/-- `calculate_julian_day` (src/app.py lines 74-86).  `year` and `month`
are Python ints (the code uses `//`, floor division, on them); the
remaining fields participate only in field arithmetic, so they are
embedded at the field type (the HTTP handler passes `hour` already
shifted by the fractional timezone, hence non-integral). -/
def calculate_julian_day (year month : ℤ) (day hour minute second : α) : α :=
  let year' := if month ≤ 2 then year - 1 else year
  let month' := if month ≤ 2 then month + 12 else month
  let A := Int.fdiv year' 100
  let B := 2 - A + Int.fdiv A 4
  let JD : α := ((pytrunc (365.25 * ((year' : α) + 4716)) : ℤ) : α) +
    ((pytrunc (30.6001 * ((month' : α) + 1)) : ℤ) : α) + day + (B : α) - 1524.5
  JD + (hour + minute / 60 + second / 3600) / 24

/-- Python's `math.radians`. -/
noncomputable def radians (x : ℝ) : ℝ :=
  x * (Real.pi / 180)

/-- `calculate_sun_position` (src/app.py lines 88-100). -/
noncomputable def calculate_sun_position (jd : ℝ) : ℝ :=
  let T := (jd - 2451545.0) / 36525.0
  let L0 := 280.46646 + 36000.76983 * T + 0.0003032 * T * T
  let M := 357.52911 + 35999.05029 * T - 0.0001536 * T * T
  let M_rad := radians M
  let C := (1.914602 - 0.004817 * T - 0.000014 * T * T) * Real.sin M_rad +
    (0.019993 - 0.000101 * T) * Real.sin (2 * M_rad) +
    0.000029 * Real.sin (3 * M_rad)
  pymod (L0 + C) 360

/-- `calculate_moon_position` (src/app.py lines 102-119), including the
auxiliary arguments `A1`, `A2` that the code computes but never uses. -/
noncomputable def calculate_moon_position (jd : ℝ) : ℝ :=
  let T := (jd - 2451545.0) / 36525.0
  let Lp := 218.3164477 + 481267.88123421 * T - 0.0015786 * T * T +
    T * T * T / 538841 - T * T * T * T / 65194000
  let D := 297.8501921 + 445267.1114034 * T - 0.0018819 * T * T +
    T * T * T / 545868 - T * T * T * T / 113065000
  let M := 357.52910918 + 35999.0502909 * T - 0.0001536 * T * T +
    T * T * T / 24490000
  let Mp := 134.9633964 + 477198.8675055 * T + 0.0087414 * T * T +
    T * T * T / 69699 - T * T * T * T / 14712000
  let F := 93.2720950 + 483202.0175233 * T - 0.0036539 * T * T -
    T * T * T / 3526000 + T * T * T * T / 863310000
  let A1 := 119.75 + 131.849 * T
  let A2 := 72.56 + 20.186 * T
  pymod (Lp + 6.28875 * Real.sin (radians Mp) + 1.27402 * Real.sin (radians (2 * D - Mp)) +
    0.65892 * Real.sin (radians (2 * D)) + 0.21908 * Real.sin (radians (2 * Mp)) +
    0.14753 * Real.sin (radians D) + 0.14120 * Real.sin (radians (Mp - D))) 360

/-- `calculate_moon_position` with the computation of the unused
auxiliary arguments `A1` and `A2` omitted; otherwise identical. -/
noncomputable def calculate_moon_position_noaux (jd : ℝ) : ℝ :=
  let T := (jd - 2451545.0) / 36525.0
  let Lp := 218.3164477 + 481267.88123421 * T - 0.0015786 * T * T +
    T * T * T / 538841 - T * T * T * T / 65194000
  let D := 297.8501921 + 445267.1114034 * T - 0.0018819 * T * T +
    T * T * T / 545868 - T * T * T * T / 113065000
  let M := 357.52910918 + 35999.0502909 * T - 0.0001536 * T * T +
    T * T * T / 24490000
  let Mp := 134.9633964 + 477198.8675055 * T + 0.0087414 * T * T +
    T * T * T / 69699 - T * T * T * T / 14712000
  let F := 93.2720950 + 483202.0175233 * T - 0.0036539 * T * T -
    T * T * T / 3526000 + T * T * T * T / 863310000
  pymod (Lp + 6.28875 * Real.sin (radians Mp) + 1.27402 * Real.sin (radians (2 * D - Mp)) +
    0.65892 * Real.sin (radians (2 * D)) + 0.21908 * Real.sin (radians (2 * Mp)) +
    0.14753 * Real.sin (radians D) + 0.14120 * Real.sin (radians (Mp - D))) 360

/-- `apply_ayanamsa` (src/app.py lines 121-124). -/
def apply_ayanamsa (longitude ayanamsa_value : α) : α :=
  pymod (longitude - ayanamsa_value) 360

/-- The clamped Nakshatra index `nak_index` of `get_nakshatra`
(src/app.py lines 128-129). -/
def nak_index (moon_lon : α) : ℤ :=
  min (pytrunc (moon_lon / 13.333333)) 26

/-- `get_nakshatra` (src/app.py lines 126-131): returns
(name, 1-based ordinal, pada, lord). -/
def get_nakshatra (moon_lon : α) : String × ℤ × ℤ × String :=
  let i := nak_index moon_lon
  let pada := pytrunc (pymod moon_lon 13.333333 / 3.333333) + 1
  (NAKSHATRAS.getD i.toNat "", i + 1, pada, NAKSHATRA_LORDS.getD i.toNat "")

/-- The clamped Rasi index `rasi_index` of `get_rasi`
(src/app.py lines 135-136). -/
def rasi_index (longitude : α) : ℤ :=
  min (pytrunc (longitude / 30)) 11

/-- `get_rasi` (src/app.py lines 133-137): returns
(name, 1-based ordinal, lord). -/
def get_rasi (longitude : α) : String × ℤ × String :=
  let i := rasi_index longitude
  (RASIS.getD i.toNat "", i + 1, RASI_LORDS.getD i.toNat "")

/-- The clamped Tithi index `tithi_index` of `get_tithi`
(src/app.py lines 141-143). -/
def tithi_index (sun_lon moon_lon : α) : ℤ :=
  min (pytrunc (pymod (moon_lon - sun_lon) 360 / 12)) 14

/-- `get_tithi` (src/app.py lines 139-147): returns
(name, 1-based ordinal, paksha label). -/
def get_tithi (sun_lon moon_lon : α) : String × ℤ × String :=
  let i := tithi_index sun_lon moon_lon
  let paksha := if i < 15 then "Suklapaksha" else "Krishnapaksha"
  (TITHIS.getD i.toNat "", i + 1, paksha)

/-- The clamped Yoga index `yoga_index` of `get_yoga`
(src/app.py lines 151-153). -/
def yoga_index (sun_lon moon_lon : α) : ℤ :=
  min (pytrunc (pymod (sun_lon + moon_lon) 360 / 13.333333)) 26

/-- `get_yoga` (src/app.py lines 149-154): returns (name, 1-based ordinal). -/
def get_yoga (sun_lon moon_lon : α) : String × ℤ :=
  let i := yoga_index sun_lon moon_lon
  (YOGAS.getD i.toNat "", i + 1)

/-- The result dictionary assembled by the `/api/calculate-birth-chart`
handler (src/app.py lines 266-309), flattened field by field. -/
structure ChartResult where
  name : String
  sex : String
  birth_date : String
  birth_time : String
  timezone : ℝ
  latitude : ℝ
  longitude : ℝ
  ayanamsa : String
  tithi_name : String
  tithi_number : ℤ
  tithi_paksha : String
  lagna_sign : String
  lagna_lord : String
  lagna_degrees : ℝ
  rasi_sign : String
  rasi_lord : String
  nakshatra_name : String
  nakshatra_number : ℤ
  nakshatra_lord : String
  nakshatra_pada : ℤ
  yoga_name : String
  yoga_number : ℤ
  sun_longitude : ℝ
  sun_sign : String
  moon_longitude : ℝ
  moon_sign : String

/-- The calculation core of the `calculate_birth_chart` handler
(src/app.py lines 180-309), starting from the already-parsed scalar
fields (string parsing is the HTTP layer's concern).  `ayanamsa_input`
is the caller-supplied ayanamsa name (`data.get('ayanamsa', ...)`),
which the handler only logs; the result's `ayanamsa` field is the
literal `"Chitra Paksha"` (line 274). -/
noncomputable def calculate_birth_chart (name sex birth_date birth_time : String)
    (timezone latitude longitude : ℝ) (ayanamsa_input : String)
    (year month : ℤ) (day hour minute second : ℝ) : ChartResult :=
  let hour_utc := hour - timezone
  let jd := calculate_julian_day year month day hour_utc minute second
  let sun_sayana := calculate_sun_position jd
  let moon_sayana := calculate_moon_position jd
  let ayanamsa_value : ℝ := 23.638333
  let sun_nirayana := apply_ayanamsa sun_sayana ayanamsa_value
  let moon_nirayana := apply_ayanamsa moon_sayana ayanamsa_value
  let nak := get_nakshatra moon_nirayana
  let ras := get_rasi moon_nirayana
  let tit := get_tithi sun_nirayana moon_nirayana
  let yog := get_yoga sun_nirayana moon_nirayana
  let lagna_lon := pymod (sun_nirayana + hour * 15) 360
  let lag := get_rasi lagna_lon
  { name := name
    sex := sex
    birth_date := birth_date
    birth_time := birth_time
    timezone := timezone
    latitude := latitude
    longitude := longitude
    ayanamsa := "Chitra Paksha"
    tithi_name := tit.1
    tithi_number := tit.2.1
    tithi_paksha := tit.2.2
    lagna_sign := lag.1
    lagna_lord := lag.2.2
    lagna_degrees := lagna_lon
    rasi_sign := ras.1
    rasi_lord := ras.2.2
    nakshatra_name := nak.1
    nakshatra_number := nak.2.1
    nakshatra_lord := nak.2.2.2
    nakshatra_pada := nak.2.2.1
    yoga_name := yog.1
    yoga_number := yog.2
    sun_longitude := sun_nirayana
    sun_sign := (get_rasi sun_nirayana).1
    moon_longitude := moon_nirayana
    moon_sign := (get_rasi moon_nirayana).1 }

end Defs

section Lemmas

variable {α : Type} [LinearOrderedField α] [FloorRing α]

theorem pymod_nonneg (a b : α) (hb : 0 < b) : 0 ≤ pymod a b := by
  unfold pymod
  rw [sub_nonneg]
  calc b * ((⌊a / b⌋ : ℤ) : α) ≤ b * (a / b) :=
        mul_le_mul_of_nonneg_left (Int.floor_le _) hb.le
    _ = a := by rw [mul_comm]; exact div_mul_cancel₀ a hb.ne'

theorem pymod_lt (a b : α) (hb : 0 < b) : pymod a b < b := by
  unfold pymod
  have h1 : a / b < ((⌊a / b⌋ : ℤ) : α) + 1 := Int.lt_floor_add_one _
  have h2 : a / b * b < (((⌊a / b⌋ : ℤ) : α) + 1) * b := mul_lt_mul_of_pos_right h1 hb
  rw [div_mul_cancel₀ a hb.ne'] at h2
  nlinarith [h2]

theorem pymod_eq_self (a b : α) (h0 : 0 ≤ a) (hab : a < b) : pymod a b = a := by
  have hb : 0 < b := lt_of_le_of_lt h0 hab
  have hf : ⌊a / b⌋ = 0 := by
    rw [Int.floor_eq_zero_iff]
    exact Set.mem_Ico.mpr ⟨div_nonneg h0 hb.le, (div_lt_one hb).mpr hab⟩
  unfold pymod
  rw [hf]
  push_cast
  ring

theorem pymod_sub_int_mul (t b : α) (k : ℤ) (hb : b ≠ 0) :
    pymod (t - b * k) b = pymod t b := by
  unfold pymod
  have h : (t - b * (k : α)) / b = t / b - (k : α) := by
    field_simp
  rw [h]
  rw [show t / b - ((k : ℤ) : α) = t / b - (k : ℤ) by ring]
  rw [Int.floor_sub_int]
  push_cast
  ring

theorem pytrunc_eq_floor {a : α} (h : 0 ≤ a) : pytrunc a = ⌊a⌋ := by
  unfold pytrunc
  rw [if_neg (not_lt.mpr h)]

theorem pytrunc_nonneg {a : α} (h : 0 ≤ a) : 0 ≤ pytrunc a := by
  rw [pytrunc_eq_floor h]
  exact Int.floor_nonneg.mpr h

theorem pytrunc_eq (a : α) (z : ℤ) (hz : (0 : α) ≤ (z : α)) (h1 : (z : α) ≤ a)
    (h2 : a < (z : α) + 1) : pytrunc a = z := by
  rw [pytrunc_eq_floor (le_trans hz h1), Int.floor_eq_iff]
  exact ⟨h1, h2⟩

theorem get_nakshatra_ordinal (x : α) : (get_nakshatra x).2.1 = nak_index x + 1 := rfl

theorem get_nakshatra_pada (x : α) :
    (get_nakshatra x).2.2.1 = pytrunc (pymod x 13.333333 / 3.333333) + 1 := rfl

theorem get_rasi_ordinal (x : α) : (get_rasi x).2.1 = rasi_index x + 1 := rfl

theorem get_rasi_name (x : α) : (get_rasi x).1 = RASIS.getD (rasi_index x).toNat "" := rfl

theorem get_tithi_ordinal (s m : α) : (get_tithi s m).2.1 = tithi_index s m + 1 := rfl

theorem get_tithi_paksha (s m : α) :
    (get_tithi s m).2.2 =
      if tithi_index s m < 15 then "Suklapaksha" else "Krishnapaksha" := rfl

theorem get_yoga_ordinal (s m : α) : (get_yoga s m).2 = yoga_index s m + 1 := rfl

end Lemmas

section EasyClaims

/-- C2: for every pair of sidereal Sun and Moon longitudes, the paksha
label returned by `get_tithi` is "Suklapaksha": the tithi index is
clamped to at most 14, so the `index < 15` test always succeeds and
"Krishnapaksha" is never returned. -/
theorem c2_paksha_always_suklapaksha (sun_lon moon_lon : ℝ) :
    (get_tithi sun_lon moon_lon).2.2 = "Suklapaksha" := by
  rw [get_tithi_paksha, if_pos]
  unfold tithi_index
  exact lt_of_le_of_lt (min_le_right _ _) (by norm_num)

/-- C5: adding the ayanamsa back to `apply_ayanamsa`'s output and
re-normalizing modulo 360 reproduces the input modulo 360, for every
tropical longitude and every ayanamsa value. -/
theorem c5_ayanamsa_roundtrip (x a : ℝ) :
    pymod (apply_ayanamsa x a + a) 360 = pymod x 360 := by
  have h : apply_ayanamsa x a + a = x - 360 * ((⌊(x - a) / 360⌋ : ℤ) : ℝ) := by
    unfold apply_ayanamsa pymod
    ring
  rw [h, pymod_sub_int_mul x 360 _ (by norm_num)]

/-- C6: for every Julian Day input, the outputs of
`calculate_sun_position` and `calculate_moon_position` lie in [0, 360). -/
theorem c6_positions_in_range (jd : ℝ) :
    (0 ≤ calculate_sun_position jd ∧ calculate_sun_position jd < 360) ∧
      (0 ≤ calculate_moon_position jd ∧ calculate_moon_position jd < 360) := by
  unfold calculate_sun_position calculate_moon_position
  exact ⟨⟨pymod_nonneg _ _ (by norm_num), pymod_lt _ _ (by norm_num)⟩,
    ⟨pymod_nonneg _ _ (by norm_num), pymod_lt _ _ (by norm_num)⟩⟩

/-- C8: two birth moments identical except that one's seconds field is
exactly one greater differ in Julian Day by exactly 1/86400. -/
theorem c8_jd_plus_one_second (year month : ℤ) (day hour minute second : ℚ) :
    calculate_julian_day year month day hour minute (second + 1) =
      calculate_julian_day year month day hour minute second + 1 / 86400 := by
  unfold calculate_julian_day
  ring

/-- C10: `calculate_moon_position` does not depend on the auxiliary
arguments `A1` and `A2`: the otherwise identical embedding that omits
them returns the same longitude on every input. -/
theorem c10_moon_independent_of_aux (jd : ℝ) :
    calculate_moon_position jd = calculate_moon_position_noaux jd := rfl

end EasyClaims

section ConcreteClaims

/-- C1 (amended): for every sidereal Moon longitude in [0, 360), the pada
returned by `get_nakshatra` is an integer in {1,2,3,4,5}; it lies in
{1,2,3,4} whenever the remainder of the longitude modulo 13.333333 is
below 13.333332 (= 4 × 3.333333).  Because 13.333333 / 3.333333 > 4, the
residual sliver [13.333332, 13.333333) of each Nakshatra produces pada 5. -/
theorem c1_pada_range (x : ℚ) (h0 : 0 ≤ x) (h1 : x < 360) :
    1 ≤ (get_nakshatra x).2.2.1 ∧ (get_nakshatra x).2.2.1 ≤ 5 ∧
      (pymod x 13.333333 < 13.333332 → (get_nakshatra x).2.2.1 ≤ 4) := by
  rw [get_nakshatra_pada]
  have hr0 : 0 ≤ pymod x (13.333333 : ℚ) := pymod_nonneg _ _ (by norm_num)
  have hr1 : pymod x (13.333333 : ℚ) < 13.333333 := pymod_lt _ _ (by norm_num)
  have hq0 : 0 ≤ pymod x (13.333333 : ℚ) / 3.333333 := div_nonneg hr0 (by norm_num)
  have ht := pytrunc_eq_floor hq0
  refine ⟨?_, ?_, ?_⟩
  · have := pytrunc_nonneg hq0
    omega
  · rw [ht]
    have h5 : ⌊pymod x (13.333333 : ℚ) / 3.333333⌋ < 5 := by
      rw [Int.floor_lt]
      push_cast
      rw [div_lt_iff (by norm_num)]
      linarith
    omega
  · intro hcond
    rw [ht]
    have h4 : ⌊pymod x (13.333333 : ℚ) / 3.333333⌋ < 4 := by
      rw [Int.floor_lt]
      push_cast
      rw [div_lt_iff (by norm_num)]
      linarith
    omega

/-- Witness for C1 at the concrete Moon longitude 100. -/
theorem c1_pada_range_witness :
    (0 : ℚ) ≤ 100 ∧ (100 : ℚ) < 360 ∧
      (1 ≤ (get_nakshatra (100 : ℚ)).2.2.1 ∧ (get_nakshatra (100 : ℚ)).2.2.1 ≤ 5 ∧
        (pymod (100 : ℚ) 13.333333 < 13.333332 → (get_nakshatra (100 : ℚ)).2.2.1 ≤ 4)) :=
  ⟨by norm_num, by norm_num, c1_pada_range 100 (by norm_num) (by norm_num)⟩

/-- Counterexample to C1 as stated: at the in-range Moon longitude
13.333332 the pada is 5, not a member of {1,2,3,4}. -/
theorem c1_pada_counterexample :
    (0 : ℚ) ≤ 13.333332 ∧ (13.333332 : ℚ) < 360 ∧
      (get_nakshatra (13.333332 : ℚ)).2.2.1 = 5 ∧
      ¬ ((get_nakshatra (13.333332 : ℚ)).2.2.1 = 1 ∨
        (get_nakshatra (13.333332 : ℚ)).2.2.1 = 2 ∨
        (get_nakshatra (13.333332 : ℚ)).2.2.1 = 3 ∨
        (get_nakshatra (13.333332 : ℚ)).2.2.1 = 4) := by
  have h5 : (get_nakshatra (13.333332 : ℚ)).2.2.1 = 5 := by
    rw [get_nakshatra_pada,
      pymod_eq_self _ _ (by norm_num) (by norm_num),
      show (13.333332 : ℚ) / 3.333333 = 4 by norm_num,
      pytrunc_eq 4 4 (by norm_num) (by norm_num) (by norm_num)]
    decide
  refine ⟨by norm_num, by norm_num, h5, ?_⟩
  rw [h5]
  decide

end ConcreteClaims

section MoreClaims

/-- C3: `calculate_julian_day 2000 1 1 12 0 0` (the J2000.0 epoch,
UTC offset 0) returns exactly 2451545.0, so the position models'
`T = (jd - 2451545.0) / 36525.0` evaluates to 0 there. -/
theorem c3_j2000_epoch :
    calculate_julian_day (α := ℚ) 2000 1 1 12 0 0 = 2451545 ∧
      (calculate_julian_day (α := ℚ) 2000 1 1 12 0 0 - 2451545) / 36525 = 0 := by
  have h : calculate_julian_day (α := ℚ) 2000 1 1 12 0 0 = 2451545 := by
    simp only [calculate_julian_day]
    rw [if_pos (show (1 : ℤ) ≤ 2 by decide), if_pos (show (1 : ℤ) ≤ 2 by decide)]
    rw [show (2000 : ℤ) - 1 = 1999 by decide, show (1 : ℤ) + 12 = 13 by decide]
    rw [show Int.fdiv 1999 100 = 19 by decide, show Int.fdiv 19 4 = 4 by decide]
    rw [show (365.25 : ℚ) * (((1999 : ℤ) : ℚ) + 4716) = 2452653.75 by norm_num]
    rw [show (30.6001 : ℚ) * (((13 : ℤ) : ℚ) + 1) = 428.4014 by norm_num]
    rw [pytrunc_eq (2452653.75 : ℚ) 2452653 (by norm_num) (by norm_num) (by norm_num)]
    rw [pytrunc_eq (428.4014 : ℚ) 428 (by norm_num) (by norm_num) (by norm_num)]
    push_cast
    norm_num
  exact ⟨h, by rw [h]; norm_num⟩

/-- C4: for every longitude in [0, 360) (and arbitrary Sun/Moon pairs
for Tithi and Yoga), the 1-based ordinals of the four classifiers lie in
their stated ranges and all catalogue-table lookups are in bounds. -/
theorem c4_ordinals_in_range (x sun_lon moon_lon : ℚ) (h0 : 0 ≤ x) (h1 : x < 360) :
    (1 ≤ (get_nakshatra x).2.1 ∧ (get_nakshatra x).2.1 ≤ 27 ∧
      (nak_index x).toNat < NAKSHATRAS.length ∧
      (nak_index x).toNat < NAKSHATRA_LORDS.length) ∧
    (1 ≤ (get_rasi x).2.1 ∧ (get_rasi x).2.1 ≤ 12 ∧
      (rasi_index x).toNat < RASIS.length ∧
      (rasi_index x).toNat < RASI_LORDS.length) ∧
    (1 ≤ (get_yoga sun_lon moon_lon).2 ∧ (get_yoga sun_lon moon_lon).2 ≤ 27 ∧
      (yoga_index sun_lon moon_lon).toNat < YOGAS.length) ∧
    (1 ≤ (get_tithi sun_lon moon_lon).2.1 ∧ (get_tithi sun_lon moon_lon).2.1 ≤ 15 ∧
      (tithi_index sun_lon moon_lon).toNat < TITHIS.length) := by
  have hnak0 : 0 ≤ nak_index x := by
    unfold nak_index
    exact le_min (pytrunc_nonneg (div_nonneg h0 (by norm_num))) (by norm_num)
  have hnak1 : nak_index x ≤ 26 := by
    unfold nak_index
    exact min_le_right _ _
  have hras0 : 0 ≤ rasi_index x := by
    unfold rasi_index
    exact le_min (pytrunc_nonneg (div_nonneg h0 (by norm_num))) (by norm_num)
  have hras1 : rasi_index x ≤ 11 := by
    unfold rasi_index
    exact min_le_right _ _
  have hyog0 : 0 ≤ yoga_index sun_lon moon_lon := by
    unfold yoga_index
    exact le_min
      (pytrunc_nonneg (div_nonneg (pymod_nonneg _ _ (by norm_num)) (by norm_num)))
      (by norm_num)
  have hyog1 : yoga_index sun_lon moon_lon ≤ 26 := by
    unfold yoga_index
    exact min_le_right _ _
  have htit0 : 0 ≤ tithi_index sun_lon moon_lon := by
    unfold tithi_index
    exact le_min
      (pytrunc_nonneg (div_nonneg (pymod_nonneg _ _ (by norm_num)) (by norm_num)))
      (by norm_num)
  have htit1 : tithi_index sun_lon moon_lon ≤ 14 := by
    unfold tithi_index
    exact min_le_right _ _
  rw [get_nakshatra_ordinal, get_rasi_ordinal, get_yoga_ordinal, get_tithi_ordinal,
    show NAKSHATRAS.length = 27 from rfl, show NAKSHATRA_LORDS.length = 27 from rfl,
    show RASIS.length = 12 from rfl, show RASI_LORDS.length = 12 from rfl,
    show YOGAS.length = 27 from rfl, show TITHIS.length = 15 from rfl]
  refine ⟨⟨?_, ?_, ?_, ?_⟩, ⟨?_, ?_, ?_, ?_⟩, ⟨?_, ?_, ?_⟩, ⟨?_, ?_, ?_⟩⟩ <;> omega

/-- Witness for C4 at longitude 100 and Sun/Moon pair (10, 50). -/
theorem c4_ordinals_in_range_witness :
    (0 : ℚ) ≤ 100 ∧ (100 : ℚ) < 360 ∧
      ((1 ≤ (get_nakshatra (100 : ℚ)).2.1 ∧ (get_nakshatra (100 : ℚ)).2.1 ≤ 27 ∧
        (nak_index (100 : ℚ)).toNat < NAKSHATRAS.length ∧
        (nak_index (100 : ℚ)).toNat < NAKSHATRA_LORDS.length) ∧
      (1 ≤ (get_rasi (100 : ℚ)).2.1 ∧ (get_rasi (100 : ℚ)).2.1 ≤ 12 ∧
        (rasi_index (100 : ℚ)).toNat < RASIS.length ∧
        (rasi_index (100 : ℚ)).toNat < RASI_LORDS.length) ∧
      (1 ≤ (get_yoga (10 : ℚ) 50).2 ∧ (get_yoga (10 : ℚ) 50).2 ≤ 27 ∧
        (yoga_index (10 : ℚ) 50).toNat < YOGAS.length) ∧
      (1 ≤ (get_tithi (10 : ℚ) 50).2.1 ∧ (get_tithi (10 : ℚ) 50).2.1 ≤ 15 ∧
        (tithi_index (10 : ℚ) 50).toNat < TITHIS.length)) :=
  ⟨by norm_num, by norm_num, c4_ordinals_in_range 100 10 50 (by norm_num) (by norm_num)⟩

/-- C7: in `get_rasi`, a longitude exactly at a bucket edge falls into
the next bucket (input 30 yields ordinal 2, Vrishabha), and every
longitude in [330, 360) clamps to the last bucket (ordinal 12). -/
theorem c7_rasi_boundary :
    ((get_rasi (30 : ℚ)).1 = "Vrishabha" ∧ (get_rasi (30 : ℚ)).2.1 = 2) ∧
      ∀ x : ℚ, 330 ≤ x → x < 360 → (get_rasi x).2.1 = 12 := by
  constructor
  · have hidx : rasi_index (30 : ℚ) = 1 := by
      unfold rasi_index
      rw [show (30 : ℚ) / 30 = 1 by norm_num,
        pytrunc_eq (1 : ℚ) 1 (by norm_num) (by norm_num) (by norm_num)]
      decide
    constructor
    · rw [get_rasi_name, hidx]
      rfl
    · rw [get_rasi_ordinal, hidx]
      decide
  · intro x hx1 hx2
    have hfl : ⌊x / 30⌋ = 11 := by
      rw [Int.floor_eq_iff]
      refine ⟨?_, ?_⟩
      · push_cast
        rw [le_div_iff (by norm_num)]
        linarith
      · push_cast
        rw [div_lt_iff (by norm_num)]
        linarith
    have hidx : rasi_index x = 11 := by
      unfold rasi_index
      rw [pytrunc_eq_floor (div_nonneg (by linarith) (by norm_num)), hfl]
      decide
    rw [get_rasi_ordinal, hidx]
    decide

/-- Witness for C7's clamping branch at longitude 345. -/
theorem c7_rasi_boundary_witness :
    (330 : ℚ) ≤ 345 ∧ (345 : ℚ) < 360 ∧ (get_rasi (345 : ℚ)).2.1 = 12 :=
  ⟨by norm_num, by norm_num, c7_rasi_boundary.2 345 (by norm_num) (by norm_num)⟩

/-- C9 (amended): the assembled chart copies the caller-supplied name,
sex and raw birth date/time strings through verbatim, but its ayanamsa
label is always the constant "Chitra Paksha" regardless of the
caller-supplied ayanamsa name (which the handler only logs). -/
theorem c9_identity_fields (name sex birth_date birth_time : String)
    (timezone latitude longitude : ℝ) (ayanamsa_input : String)
    (year month : ℤ) (day hour minute second : ℝ) :
    (calculate_birth_chart name sex birth_date birth_time timezone latitude longitude
        ayanamsa_input year month day hour minute second).name = name ∧
    (calculate_birth_chart name sex birth_date birth_time timezone latitude longitude
        ayanamsa_input year month day hour minute second).sex = sex ∧
    (calculate_birth_chart name sex birth_date birth_time timezone latitude longitude
        ayanamsa_input year month day hour minute second).birth_date = birth_date ∧
    (calculate_birth_chart name sex birth_date birth_time timezone latitude longitude
        ayanamsa_input year month day hour minute second).birth_time = birth_time ∧
    (calculate_birth_chart name sex birth_date birth_time timezone latitude longitude
        ayanamsa_input year month day hour minute second).timezone = timezone ∧
    (calculate_birth_chart name sex birth_date birth_time timezone latitude longitude
        ayanamsa_input year month day hour minute second).latitude = latitude ∧
    (calculate_birth_chart name sex birth_date birth_time timezone latitude longitude
        ayanamsa_input year month day hour minute second).longitude = longitude ∧
    (calculate_birth_chart name sex birth_date birth_time timezone latitude longitude
        ayanamsa_input year month day hour minute second).ayanamsa = "Chitra Paksha" :=
  ⟨rfl, rfl, rfl, rfl, rfl, rfl, rfl, rfl⟩

/-- Counterexample to C9 as stated: a caller supplying the ayanamsa
label "Lahiri" gets back a chart whose ayanamsa field is not "Lahiri"
(it is the hardcoded "Chitra Paksha" of src/app.py line 274). -/
theorem c9_counterexample :
    ¬ ((calculate_birth_chart "A" "M" "2000-01-01" "12:00:00" 0 0 0 "Lahiri"
        2000 1 1 12 0 0).ayanamsa = "Lahiri") := by
  intro h
  rw [show (calculate_birth_chart "A" "M" "2000-01-01" "12:00:00" 0 0 0 "Lahiri"
      2000 1 1 12 0 0).ayanamsa = "Chitra Paksha" from rfl] at h
  exact absurd h (by decide)

end MoreClaims
